import Mathlib

/-!
# Verification development for the heinercast episode-generation pipeline

Shallow embedding of the pipeline handlers in `app/api/generation.py` and
`app/api/episodes.py`, and of the pure service functions they call
(`app/services/elevenlabs_service.py`, `app/services/llm_service.py`,
`app/services/audio_service.py`, `app/services/cover_service.py`,
`app/services/summary_service.py`).

Modelling conventions:
- Python floats are modelled as exact rationals (`ℚ`); at the magnitudes the
  code handles (character counts, seconds) the float computations agree with
  the exact rational ones.
- External I/O (HTTP calls to the LLM / ElevenLabs / kie.ai, storage writes,
  FFmpeg runs, database commits) is modelled by explicit environment records
  carrying each call's outcome (`Except ApiError _`); the handlers are pure
  state transformers `Episode → Env → Episode × Except ApiError Result`.
  The returned `Episode` is the in-memory episode record after the handler
  body has run (the session layer, `app/database.py`, is not part of the
  sources; per the spec, step results — including the ERROR state — are
  persisted).
- JSON dictionaries stored on the episode are modelled by typed structures;
  a key that may be absent is an `Option` field.  Python truthiness of a
  string/list/dict value is modelled explicitly (`strTruthy`, emptiness
  tests); an episode `script_json` that is `None` or the empty dict `{}` is
  `none` (both are falsy and indistinguishable to every handler).
- Error messages are the `str(e)` of the raised exception as built in
  `app/core/exceptions.py`; messages of Python runtime errors
  (AttributeError, UnboundLocalError, TypeError) are rendered without
  quote characters.
-/

namespace Heinercast

/-- Statuses: `EpisodeStatus` from `app/models/episode.py` (stored as a string column;
every write in the handlers uses one of these enum values). -/
inductive EpisodeStatus
  | draft
  | script_generating
  | script_done
  | voiceover_generating
  | voiceover_done
  | sounds_generating
  | sounds_done
  | music_generating
  | music_done
  | merging
  | audio_done
  | cover_generating
  | done
  | error
  deriving DecidableEq, Repr

/-- Position of a status along the pipeline order of spec §4.1 (the
declaration order of the enum); ERROR is outside the pipeline order and is
mapped after everything. -/
def EpisodeStatus.pipelineIndex : EpisodeStatus → Nat
  | .draft => 0
  | .script_generating => 1
  | .script_done => 2
  | .voiceover_generating => 3
  | .voiceover_done => 4
  | .sounds_generating => 5
  | .sounds_done => 6
  | .music_generating => 7
  | .music_done => 8
  | .merging => 9
  | .audio_done => 10
  | .cover_generating => 11
  | .done => 12
  | .error => 13

/-- Error taxonomy of `app/core/exceptions.py` plus the request-validation
layer (pydantic `Field` constraints, rejected before a handler runs) and
Python runtime errors. -/
inductive ApiError
  | business (msg : String)
  | validation (msg : String)
  | llmProvider (provider msg : String)
  | elevenlabs (msg : String)
  | kieai (msg : String)
  | audioProcessing (msg : String)
  | runtime (msg : String)
  deriving DecidableEq, Repr

/-- Message rendering: `str(e)` for each exception: `HeinerCastException.__init__` passes
`self.message` to `Exception`, and `ExternalAPIError` prefixes the service
name (`f"SERVICE API error: MESSAGE"`). -/
def ApiError.toMessage : ApiError → String
  | .business m => m
  | .validation m => m
  | .llmProvider p m => "LLM (" ++ p ++ ") API error: " ++ m
  | .elevenlabs m => "ElevenLabs API error: " ++ m
  | .kieai m => "kie.ai API error: " ++ m
  | .audioProcessing m => "Audio processing error: " ++ m
  | .runtime m => m

/-- Python truthiness of an optional string value (absent, `None` and `""`
are falsy). -/
def strTruthy : Option String → Bool
  | none => false
  | some s => s ≠ ""

/-- One script line as stored in `script_json["lines"]` after parsing
(`LLMService._parse_script_response` guarantees `speaker` and `text` and
defaults `voice_id` to `""` and `sound_effect` to `None`). -/
structure Line where
  speaker : String
  voice_id : String
  text : String
  sound_effect : Option String
  deriving DecidableEq, Repr, Inhabited

/-- The stored `script_json` dict.  `story_title` / `genre_tone` /
`approx_duration_minutes` are `none` when the key is absent; a missing
`lines` key reads as `[]` (every consumer uses `.get("lines", [])`). -/
structure ScriptJson where
  story_title : Option String
  genre_tone : Option String
  approx_duration_minutes : Option ℚ
  lines : List Line
  deriving DecidableEq, Repr, Inhabited

/-- One element of `sounds_json`
(format `{"prompt", "url", "local_path", "start_time", "duration"}`). -/
structure SoundArtifact where
  prompt : String
  url : String
  local_path : String
  start_time : ℚ
  duration : ℚ
  deriving DecidableEq, Repr

/-- One element of `cover_variants_json` (format `{"url", "selected"}`). -/
structure CoverVariant where
  url : String
  selected : Bool
  deriving DecidableEq, Repr

/-- Timestamps: `voice_timestamps_json` as written by `generate_voiceover`
(`{"parts": [...], "total_parts": n}`); the per-part timestamp payloads are
opaque to every claim and modelled as strings. -/
structure VoiceTimestamps where
  parts : List String
  total_parts : Option Nat
  deriving DecidableEq, Repr

/-- The `Episode` row (`app/models/episode.py`), restricted to the fields
the pipeline handlers read or write.  `id`, `project_id`, `episode_number`,
`description`, `target_duration_minutes`, `created_at` and `updated_at`
are omitted: no claim depends on them (`updated_at` is refreshed by the
handlers but carries no other information). -/
structure Episode where
  title : String
  title_auto_generated : Bool
  include_sound_effects : Bool
  include_background_music : Bool
  script_json : Option ScriptJson
  script_text : Option String
  summary : Option String
  voice_audio_url : Option String
  voice_audio_duration_seconds : Option ℚ
  voice_timestamps_json : Option VoiceTimestamps
  sounds_json : Option (List SoundArtifact)
  music_url : Option String
  music_composition_plan : Option String
  final_audio_url : Option String
  final_audio_duration_seconds : Option ℚ
  cover_url : Option String
  cover_reference_image_url : Option String
  cover_variants_json : Option (List CoverVariant)
  status : EpisodeStatus
  error_message : Option String
  deriving DecidableEq, Repr

/-- A fresh DRAFT episode with no artifacts, used to build the concrete
episodes of the witnesses and counterexamples. -/
def blankEpisode : Episode where
  title := "Episode 1"
  title_auto_generated := true
  include_sound_effects := false
  include_background_music := false
  script_json := none
  script_text := none
  summary := none
  voice_audio_url := none
  voice_audio_duration_seconds := none
  voice_timestamps_json := none
  sounds_json := none
  music_url := none
  music_composition_plan := none
  final_audio_url := none
  final_audio_duration_seconds := none
  cover_url := none
  cover_reference_image_url := none
  cover_variants_json := none
  status := .draft
  error_message := none

/-! ## LLM response parsing (`LLMService._parse_script_response`) -/

/-- A raw script line as decoded from the LLM's JSON before validation:
each field is `none` when the key is absent.  `sound_effect`'s inner
`Option` is the JSON value itself (`none` = JSON null). -/
structure RawLine where
  speaker : Option String
  voice_id : Option String
  text : Option String
  sound_effect : Option (Option String)
  deriving DecidableEq, Repr

/-- The decoded JSON object returned by the LLM, before validation.
A `lines` key holding a non-list value is subsumed by `none` (both raise
the same `ValueError` path). -/
structure RawScript where
  story_title : Option String
  genre_tone : Option String
  lines : Option (List RawLine)
  approx_duration_minutes : Option ℚ
  deriving DecidableEq, Repr

/-- Check of `required_fields = ["story_title", "genre_tone", "lines"]`,
in loop order: the first absent key names the error. -/
def missingRequiredField (r : RawScript) : Option String :=
  if r.story_title.isNone then some "story_title"
  else if r.genre_tone.isNone then some "genre_tone"
  else if r.lines.isNone then some "lines"
  else none

/-- Per-line validation and defaulting from the parse loop: requires
`speaker` and `text`, defaults `voice_id` to `""` and a missing
`sound_effect` key to `None`. -/
def parseRawLine (rl : RawLine) : Option Line :=
  match rl.speaker, rl.text with
  | some sp, some tx =>
      some { speaker := sp
             voice_id := rl.voice_id.getD ""
             text := tx
             sound_effect := match rl.sound_effect with
               | none => none
               | some v => v }
  | _, _ => none

/-- Total characters of a parsed line list
(`sum(len(line["text"]) for line in lines)`). -/
def totalChars (lines : List Line) : Nat :=
  (lines.map fun l => l.text.length).sum

/-- Parsing: `LLMService._parse_script_response` (`app/services/llm_service.py`,
lines 250-309), starting from the decoded JSON object: validates the
required keys, requires a non-empty `lines` list whose entries all carry
`speaker` and `text`, defaults the optional per-line keys, and fills in
`approx_duration_minutes` as `max(1, total_chars // 850)` when absent.
Every validation failure is re-raised as a typed
`LLMProviderError(provider, f"Invalid script structure: ...")`. -/
def parse_script_response (provider : String) (r : RawScript) :
    Except ApiError ScriptJson :=
  match missingRequiredField r with
  | some f =>
      .error (.llmProvider provider
        ("Invalid script structure: Missing required field: " ++ f))
  | none =>
    match r.lines with
    | none =>
        .error (.llmProvider provider
          "Invalid script structure: Script must have at least one line")
    | some rawLines =>
      if rawLines = [] then
        .error (.llmProvider provider
          "Invalid script structure: Script must have at least one line")
      else
        match rawLines.mapM parseRawLine with
        | none =>
            .error (.llmProvider provider
              "Invalid script structure: Each line must have speaker and text fields")
        | some parsed =>
            .ok { story_title := r.story_title
                  genre_tone := r.genre_tone
                  approx_duration_minutes :=
                    some (r.approx_duration_minutes.getD
                      (max 1 (totalChars parsed / 850) : ℕ))
                  lines := parsed }

/-- Result of `LLMService.generate_script` as seen by the handlers: the HTTP
call either fails (typed `LLMProviderError`) or yields a decoded JSON
object that is then validated by `parse_script_response`. -/
def llm_generate_script (provider : String)
    (raw : Except ApiError RawScript) : Except ApiError ScriptJson :=
  match raw with
  | .error e => .error e
  | .ok r => parse_script_response provider r

/-! ## `SummaryService.build_script_text_from_json` -/

/-- Markdown rendering of one dialogue line plus its optional sound cue and
the trailing blank line. -/
def scriptTextLineBlock (l : Line) : List String :=
  ["**" ++ l.speaker ++ "**: " ++ l.text]
    ++ (if strTruthy l.sound_effect then
          ["  🔊 [" ++ l.sound_effect.getD "" ++ "]"] else [])
    ++ [""]

/-- Embedding of `SummaryService.build_script_text_from_json`
(`app/services/summary_service.py`, lines 50-88) on a parsed script (the
callers pass the freshly parsed script, which always carries `lines`). -/
def build_script_text_from_json (s : ScriptJson) : String :=
  let header :=
    (if strTruthy s.story_title then ["# " ++ s.story_title.getD "", ""] else [])
      ++ (if strTruthy s.genre_tone then ["*" ++ s.genre_tone.getD "" ++ "*", ""] else [])
  String.intercalate "\n" (header ++ (s.lines.map scriptTextLineBlock).flatten)

/-! ## `generate_script` endpoint (`app/api/generation.py`, lines 42-119) -/

/-- Successful response payload of the script endpoint (the fields the
claims look at). -/
structure ScriptOk where
  status : EpisodeStatus
  story_title : Option String
  lines_count : Nat
  deriving DecidableEq, Repr

/-- The `generate_script` handler: sets SCRIPT_GENERATING and clears
`error_message`, runs the LLM call, on success stores `script_json`, the
rendered `script_text`, updates an auto-generated title from a truthy
`story_title`, and sets SCRIPT_DONE; on any failure sets ERROR and
`error_message = str(e)` and stores none of the script fields. -/
def generate_script (ep : Episode) (llm : Except ApiError ScriptJson) :
    Episode × Except ApiError ScriptOk :=
  let ep1 : Episode := { ep with status := .script_generating, error_message := none }
  match llm with
  | .ok script =>
      let ep2 : Episode :=
        { ep1 with
          script_json := some script
          script_text := some (build_script_text_from_json script)
          title :=
            if ep1.title_auto_generated ∧ strTruthy script.story_title then
              script.story_title.getD ep1.title
            else ep1.title
          status := .script_done }
      (ep2, .ok { status := .script_done
                  story_title := script.story_title
                  lines_count := script.lines.length })
  | .error e =>
      ({ ep1 with status := .error, error_message := some e.toMessage }, .error e)

/-! ## `ElevenLabsService._split_into_parts`
(`app/services/elevenlabs_service.py`, lines 185-221) -/

/-- Constant `AUDIO_SETTINGS` entry `max_chars_per_request` from `app/config.py`. -/
def max_chars_per_request : Nat := 4800

/-- The greedy distribution loop: close the current part once its length
has reached `total / max_parts` characters, provided fewer than
`max_parts - 1` parts are already closed and the current part is non-empty.
The float comparison `current_length >= total / max_parts` is the exact
rational comparison `max_parts * current_length ≥ total`. -/
def splitLoop (maxParts total : Nat) :
    List Line → List (List Line) → List Line → Nat → List (List Line)
  | [], parts, currentPart, _ =>
      if currentPart = [] then parts else parts ++ [currentPart]
  | line :: rest, parts, currentPart, currentLength =>
      if maxParts * currentLength ≥ total ∧ parts.length < maxParts - 1 ∧
          currentPart ≠ [] then
        splitLoop maxParts total rest (parts ++ [currentPart]) [line] line.text.length
      else
        splitLoop maxParts total rest parts (currentPart ++ [line])
          (currentLength + line.text.length)

/-- Embedding of `ElevenLabsService._split_into_parts` with its default `max_parts=3`:
a line list whose total characters fit one request is kept as a single
part, otherwise lines are distributed greedily without ever splitting a
line's text. -/
def split_into_parts (lines : List Line) (maxParts : Nat := 3) :
    List (List Line) :=
  let total := totalChars lines
  if total ≤ max_chars_per_request then [lines]
  else splitLoop maxParts total lines [] [] 0

/-! ## `generate_voiceover` endpoint (`app/api/generation.py`, lines 122-216) -/

/-- Outcomes of the external calls made by the voiceover step: the
local-voice → ElevenLabs-voice lookup (`Voice` table), the TTS call(s) of
`generate_dialogue_in_parts` collapsed into one outcome yielding the audio
parts (opaque blobs) and their timestamp payloads, the URL under which the
(merged) audio is stored, and the ffprobe duration. -/
structure VoiceoverEnv where
  voice_map : String → Option String
  tts : Except ApiError (List String × List String)
  saved_url : String
  duration : Except ApiError ℚ

/-- The in-place rewrite of each line's `voice_id` from the local id to the
ElevenLabs id (lines 154-166): a line is rewritten only when its
`voice_id` is truthy and resolves to a voice with an `elevenlabs_voice_id`
(the `voice_cache` memoisation is invisible to a functional lookup). -/
def remapVoiceIds (voiceMap : String → Option String) (lines : List Line) :
    List Line :=
  lines.map fun l =>
    if l.voice_id ≠ "" then
      match voiceMap l.voice_id with
      | some eid => { l with voice_id := eid }
      | none => l
    else l

/-- Successful response payload of the voiceover endpoint. -/
structure VoiceoverOk where
  audio_url : String
  duration_seconds : ℚ
  parts_count : Nat
  deriving DecidableEq, Repr

/-- The `generate_voiceover` handler.  A missing (or empty-dict)
`script_json` is rejected as a `BusinessLogicError` before any episode
field changes (the best-effort delete of the old audio blob touches no
episode field).  Past that guard the handler sets VOICEOVER_GENERATING and
clears `error_message`; the `"Script has no lines"` check sits inside the
`try` block, so its `BusinessLogicError` is caught like any other failure
and recorded as ERROR + message.  On success the remapped lines are left
in `script_json` (in-place mutation), and the audio URL, duration,
timestamps and VOICEOVER_DONE are stored. -/
def generate_voiceover (ep : Episode) (env : VoiceoverEnv) :
    Episode × Except ApiError VoiceoverOk :=
  match ep.script_json with
  | none =>
      (ep, .error (.business "Episode must have a script before generating voiceover"))
  | some script =>
    let ep1 : Episode :=
      { ep with status := .voiceover_generating, error_message := none }
    if script.lines = [] then
      let e := ApiError.business "Script has no lines"
      ({ ep1 with status := .error, error_message := some e.toMessage }, .error e)
    else
      let newLines := remapVoiceIds env.voice_map script.lines
      let ep2 : Episode :=
        { ep1 with script_json := some { script with lines := newLines } }
      match env.tts with
      | .error e =>
          ({ ep2 with status := .error, error_message := some e.toMessage }, .error e)
      | .ok (audioParts, stampParts) =>
        match env.duration with
        | .error e =>
            ({ ep2 with status := .error, error_message := some e.toMessage }, .error e)
        | .ok dur =>
            let ep3 : Episode :=
              { ep2 with
                voice_audio_url := some env.saved_url
                voice_audio_duration_seconds := some dur
                voice_timestamps_json :=
                  some { parts := stampParts, total_parts := some stampParts.length }
                status := .voiceover_done }
            (ep3, .ok { audio_url := env.saved_url
                        duration_seconds := dur
                        parts_count := audioParts.length })

/-! ## Sound-effect timing (`generate_sounds`, `app/api/generation.py`,
lines 243-262) -/

/-- A sound cue extracted from the script
(`{"prompt", "start_time", "line_index"}`). -/
structure SoundCue where
  prompt : String
  start_time : ℚ
  line_index : Nat
  deriving DecidableEq, Repr

/-- The cue-extraction loop: `current_time` accumulates the estimated
duration `len(text) / 14.0` of each line, and a truthy `sound_effect`
yields a cue placed at `current_time + line_duration` (the end of the
line's estimated span). -/
def soundCuesAux (t : ℚ) (i : Nat) : List Line → List SoundCue
  | [] => []
  | l :: rest =>
      let d : ℚ := (l.text.length : ℚ) / 14
      (if strTruthy l.sound_effect then
        [{ prompt := l.sound_effect.getD "", start_time := t + d, line_index := i }]
      else [])
        ++ soundCuesAux (t + d) (i + 1) rest

/-- Sound cues of a script, starting from `current_time = 0.0`. -/
def sound_cues (lines : List Line) : List SoundCue :=
  soundCuesAux 0 0 lines

/-- The spec's formula for the end of line `i`'s estimated span: the sum,
over lines `0..i` (prior lines plus the current line), of
`len(text) / 14` seconds. -/
def estimatedEndOfLine (lines : List Line) (i : Nat) : ℚ :=
  ((lines.take (i + 1)).map fun l => (l.text.length : ℚ) / 14).sum

/-! ## `generate_sounds` endpoint (`app/api/generation.py`, lines 219-317) -/

/-- Outcome of generating and storing the `i`-th sound effect (the
ElevenLabs sound call followed by the storage write, collapsed into the
stored URL). -/
structure SoundsEnv where
  sound_gen : Nat → Except ApiError String

/-- Per-request knobs of the sounds endpoint (`GenerateSoundsRequest`). -/
structure SoundsRequest where
  prompt_influence : ℚ := 3/10
  default_duration_seconds : ℚ := 3
  deriving DecidableEq, Repr

/-- The generation loop over the extracted cues: the first failing
external call aborts; otherwise each cue becomes a `SoundArtifact` whose
`url` and `local_path` are the stored URL and whose `duration` is the
request's default duration. -/
def generateSoundsLoop (env : SoundsEnv) (dur : ℚ) :
    List SoundCue → Nat → Except ApiError (List SoundArtifact)
  | [], _ => .ok []
  | c :: rest, i =>
      match env.sound_gen i with
      | .error e => .error e
      | .ok url =>
          match generateSoundsLoop env dur rest (i + 1) with
          | .error e => .error e
          | .ok arts =>
              .ok ({ prompt := c.prompt, url := url, local_path := url
                     start_time := c.start_time, duration := dur } :: arts)

/-- Successful response payload of the sounds endpoint. -/
structure SoundsOk where
  sounds_count : Nat
  deriving DecidableEq, Repr

/-- The `generate_sounds` handler: rejects (without mutation) when there is
no voice audio or sound effects are disabled; then sets SOUNDS_GENERATING,
extracts the cues (reading `script_json.get(...)` raises AttributeError
when `script_json` is `None`, caught as a failure), records an empty list
and SOUNDS_DONE when there are no cues, and otherwise generates each cue,
recording ERROR on the first failure. -/
def generate_sounds (ep : Episode) (req : SoundsRequest) (env : SoundsEnv) :
    Episode × Except ApiError SoundsOk :=
  if ¬ strTruthy ep.voice_audio_url then
    (ep, .error (.business "Episode must have voiceover before generating sounds"))
  else if ¬ ep.include_sound_effects then
    (ep, .error (.business "Sound effects are disabled for this episode"))
  else
    let ep1 : Episode :=
      { ep with status := .sounds_generating, error_message := none }
    match ep.script_json with
    | none =>
        let e := ApiError.runtime "NoneType object has no attribute get"
        ({ ep1 with status := .error, error_message := some e.toMessage }, .error e)
    | some script =>
      let cues := sound_cues script.lines
      if cues = [] then
        ({ ep1 with sounds_json := some [], status := .sounds_done },
          .ok { sounds_count := 0 })
      else
        match generateSoundsLoop env req.default_duration_seconds cues 0 with
        | .error e =>
            ({ ep1 with status := .error, error_message := some e.toMessage }, .error e)
        | .ok arts =>
            ({ ep1 with sounds_json := some arts, status := .sounds_done },
              .ok { sounds_count := arts.length })

/-! ## `generate_music` endpoint (`app/api/generation.py`, lines 320-392) -/

/-- Outcomes of the two ElevenLabs music calls (plan creation, rendering)
plus the storage write; the composition plan payload is opaque. -/
structure MusicEnv where
  plan : Except ApiError String
  music_saved_url : Except ApiError String

/-- The `generate_music` handler: rejects (without mutation) when there is
no voice audio or background music is disabled; then sets
MUSIC_GENERATING, creates a composition plan and renders it, and on
success stores `music_url`, the plan, and MUSIC_DONE. -/
def generate_music (ep : Episode) (env : MusicEnv) :
    Episode × Except ApiError String :=
  if ¬ strTruthy ep.voice_audio_url then
    (ep, .error (.business "Episode must have voiceover before generating music"))
  else if ¬ ep.include_background_music then
    (ep, .error (.business "Background music is disabled for this episode"))
  else
    let ep1 : Episode :=
      { ep with status := .music_generating, error_message := none }
    match env.plan with
    | .error e =>
        ({ ep1 with status := .error, error_message := some e.toMessage }, .error e)
    | .ok plan =>
      match env.music_saved_url with
      | .error e =>
          ({ ep1 with status := .error, error_message := some e.toMessage }, .error e)
      | .ok url =>
          ({ ep1 with music_url := some url
                      music_composition_plan := some plan
                      status := .music_done },
            .ok url)

/-! ## `AudioService.full_merge` (`app/services/audio_service.py`,
lines 312-429) and the `merge` endpoint (`app/api/generation.py`,
lines 395-446) -/

/-- Storage URLs (`/storage/...`) are rewritten to absolute paths under the
configured storage root; other paths pass through. -/
def resolvePath (storagePath p : String) : String :=
  if p.startsWith "/storage/" then storagePath ++ "/" ++ p.drop 9 else p

/-- The deterministic description of the FFmpeg invocation `full_merge`
builds: the input tracks with their volume filters and `adelay` offsets,
all `amix` steps using `duration=first` (the voice track bounds the
output).  The randomly named output file and the process run itself are
elided; the plan fully determines the produced audio. -/
structure MixPlan where
  voice_path : String
  voice_volume : ℚ
  sound_tracks : List (String × ℚ × ℤ)
  music_track : Option (String × ℚ)
  deriving DecidableEq, Repr

/-- Embedding of `AudioService.full_merge`: the voice track, then — only when `sounds`
is a non-empty list — one delayed input per sound (path
`local_path or url`, delay `int(start_time * 1000)` milliseconds), then —
only when `music_path` is truthy — the music input.  `int()` on the
non-negative start times is `Int.floor`. -/
def full_merge (storagePath : String) (voice_audio_path : String)
    (sounds : Option (List SoundArtifact)) (music_path : Option String)
    (voice_volume sounds_volume music_volume : ℚ) : MixPlan :=
  let soundList := match sounds with
    | some l => if l = [] then [] else l
    | none => []
  { voice_path := resolvePath storagePath voice_audio_path
    voice_volume := voice_volume
    sound_tracks := soundList.map fun s =>
      let p := if s.local_path ≠ "" then s.local_path else s.url
      (resolvePath storagePath p, sounds_volume, ⌊s.start_time * 1000⌋)
    music_track := match music_path with
      | some m => if m = "" then none else some (resolvePath storagePath m, music_volume)
      | none => none }

/-- Volume knobs of `MergeAudioRequest` (pydantic defaults). -/
structure MergeRequest where
  voice_volume : ℚ := 1
  sounds_volume : ℚ := 8/10
  music_volume : ℚ := 3/10
  deriving DecidableEq, Repr

/-- The `full_merge` call as WRITTEN at `generation.py:419-426`: the
flag-gated `sounds` / `music_path` locals of lines 415-416 (which do
execute) fed to the mixer with the request volumes.  This call never runs:
evaluating its `music_volume=request.music_volume_db` keyword raises
`AttributeError` first (`MergeAudioRequest` defines `music_volume`, not
`music_volume_db`), so this describes the mix the source text intends, not
one the endpoint ever performs. -/
def written_merge_mix (storagePath : String) (ep : Episode) (req : MergeRequest) :
    MixPlan :=
  full_merge storagePath (ep.voice_audio_url.getD "")
    (if ep.include_sound_effects then ep.sounds_json else none)
    (if ep.include_background_music then ep.music_url else none)
    req.voice_volume req.sounds_volume req.music_volume

/-- The `merge_audio` handler: rejects (without mutation) when there is no
voice audio; then sets MERGING and clears `error_message`, computes the
flag-gated `sounds` / `music_path` locals (lines 415-416), and crashes:
the `full_merge` call at line 425 evaluates `request.music_volume_db`, an
attribute `MergeAudioRequest` does not define, so every call raises
`AttributeError` inside the `try` and is recorded as ERROR + message.  No
mix is ever submitted and AUDIO_DONE is unreachable (lines 428-441 are
dead code). -/
def merge_audio (ep : Episode) (_req : MergeRequest) :
    Episode × Except ApiError Unit :=
  if ¬ strTruthy ep.voice_audio_url then
    (ep, .error (.business "Episode must have voiceover before merging"))
  else
    let ep1 : Episode := { ep with status := .merging, error_message := none }
    let e := ApiError.runtime
      "MergeAudioRequest object has no attribute music_volume_db"
    ({ ep1 with status := .error, error_message := some e.toMessage }, .error e)

/-! ## `CoverService.generate_multiple_covers`
(`app/services/cover_service.py`, lines 354-412) -/

/-- Clamp `count = max(1, min(4, count))`. -/
def clampCount (count : ℤ) : Nat := (max 1 (min 4 count)).toNat

/-- The collection loop over the `asyncio.gather` results: string results
are kept in order, exceptions are dropped. -/
def collectUrls : List (Except ApiError String) → List String
  | [] => []
  | .ok u :: rest => u :: collectUrls rest
  | .error _ :: rest => collectUrls rest

/-- Embedding of `CoverService.generate_multiple_covers`: clamps the requested count to
1..4, builds the per-variant prompt list (a provided `prompts` list long
enough wins, else a truthy `prompt` is repeated, else `ValueError`),
issues one submit-and-poll cycle per variant (cycle `i`'s outcome is
`cycles i`; concurrency is invisible to the outcome list), keeps the
successful URLs in order, and fails only when none succeeded. -/
def generate_multiple_covers (prompt : Option String)
    (prompts : Option (List String)) (count : ℤ)
    (cycles : Nat → Except ApiError String) : Except ApiError (List String) :=
  let n := clampCount count
  let promptList : Except ApiError (List String) :=
    match prompts with
    | some ps =>
        if ps ≠ [] ∧ n ≤ ps.length then .ok (ps.take n)
        else match prompt with
          | some p => if p ≠ "" then .ok (List.replicate n p)
                      else .error (.runtime "Either prompt or prompts must be provided")
          | none => .error (.runtime "Either prompt or prompts must be provided")
    | none =>
        match prompt with
        | some p => if p ≠ "" then .ok (List.replicate n p)
                    else .error (.runtime "Either prompt or prompts must be provided")
        | none => .error (.runtime "Either prompt or prompts must be provided")
  match promptList with
  | .error e => .error e
  | .ok _ =>
      let urls := collectUrls ((List.range n).map cycles)
      if urls = [] then .error (.kieai "All cover generations failed")
      else .ok urls

/-! ## `generate_cover` endpoint (`app/api/generation.py`, lines 449-551) -/

/-- Schema `GenerateCoverRequest`: these are the only fields the schema defines;
pydantic bounds `variants_count` to 1..4 at validation time. -/
structure CoverRequest where
  variants_count : ℤ := 1
  reference_image_url : Option String := none
  custom_prompt : Option String := none
  deriving DecidableEq, Repr

/-- The `generate_cover` handler.  After the best-effort deletion of the
old cover blobs (clearing `cover_variants_json` and `cover_url` when
variants were present) it sets COVER_GENERATING; inside the `try` block,
line 508 reads `request.reference_images` — an attribute
`GenerateCoverRequest` does not define — so every call raises
`AttributeError` before any external request, and the handler always ends
in ERROR with that message. -/
def generate_cover (ep : Episode) (req : CoverRequest) :
    Episode × Except ApiError Unit :=
  if ¬ (1 ≤ req.variants_count ∧ req.variants_count ≤ 4) then
    (ep, .error (.validation "variants_count must be between 1 and 4"))
  else
    let ep0 : Episode :=
      match ep.cover_variants_json with
      | some vs =>
          if vs = [] then ep
          else { ep with cover_variants_json := none, cover_url := none }
      | none => ep
    let ep1 : Episode :=
      { ep0 with status := .cover_generating, error_message := none }
    let e := ApiError.runtime
      "GenerateCoverRequest object has no attribute reference_images"
    ({ ep1 with status := .error, error_message := some e.toMessage }, .error e)

/-! ## `select_cover` endpoint (`app/api/generation.py`, lines 554-579) -/

/-- Schema field `SelectCoverRequest.variant_index` carries pydantic constraints
`ge=0, le=3`: a request outside that range is rejected by FastAPI's
validation layer before the handler runs. -/
def selectCoverIndexValid (i : ℤ) : Bool := 0 ≤ i ∧ i ≤ 3

/-- The `select_cover` endpoint (validation layer plus handler): a falsy
`cover_variants_json` (absent or empty list) and an index at or past the
variant count are business-rule errors raised before any mutation;
otherwise exactly the chosen variant's `selected` flag is set and the
primary `cover_url` becomes the chosen variant's URL.  The successful
response carries the new cover URL. -/
def select_cover (ep : Episode) (variant_index : ℤ) :
    Episode × Except ApiError String :=
  if ¬ selectCoverIndexValid variant_index then
    (ep, .error (.validation
      "variant_index must be greater than or equal to 0 and less than or equal to 3"))
  else
    match ep.cover_variants_json with
    | none => (ep, .error (.business "No cover variants available"))
    | some variants =>
      if variants = [] then
        (ep, .error (.business "No cover variants available"))
      else if (variants.length : ℤ) ≤ variant_index then
        (ep, .error (.business
          ("Invalid variant index: " ++ toString variant_index)))
      else
        let idx := variant_index.toNat
        let newVariants := variants.mapIdx fun i v =>
          { v with selected := i = idx }
        let newUrl := ((variants.get? idx).map CoverVariant.url).getD ""
        ({ ep with cover_variants_json := some newVariants
                   cover_url := some newUrl },
          .ok newUrl)

/-! ## `update_episode_script` endpoint (`app/api/episodes.py`,
lines 184-242) -/

/-- The manual script-update handler.  It first stores the new
`script_json`; when the request carries a truthy `script_text`, line 195
evaluates a comprehension over the local variable `lines`, which is only
assigned in the `else` branch (line 199) — an `UnboundLocalError` that
aborts the request before the title and status updates.  Otherwise the
text rendering, the auto-title update and — for an episode past
DRAFT / SCRIPT_GENERATING — the reset to SCRIPT_DONE are applied; no
downstream artifact field is touched. -/
def update_episode_script (ep : Episode) (script_json : ScriptJson)
    (script_text : Option String) : Episode × Except ApiError Unit :=
  let ep1 : Episode := { ep with script_json := some script_json }
  if strTruthy script_text then
    (ep1, .error (.runtime
      "cannot access local variable lines where it is not associated with a value"))
  else
    let lines := script_json.lines
    let text := String.intercalate "\n"
      (lines.map fun l => l.speaker ++ ": " ++ l.text)
    let ep2 : Episode :=
      { ep1 with
        script_text := some text
        title :=
          if ep1.title_auto_generated ∧ strTruthy script_json.story_title then
            script_json.story_title.getD ep1.title
          else ep1.title }
    let ep3 : Episode :=
      if ep2.status ≠ .draft ∧ ep2.status ≠ .script_generating then
        { ep2 with status := .script_done }
      else ep2
    (ep3, .ok ())

/-! ## `generate_full` endpoint (`app/api/generation.py`, lines 582-800) -/

/-- Schema `GenerateFullRequest` (pydantic defaults; the bounds on the volume
fields and `cover_variants_count` hold for every validated request). -/
structure FullRequest where
  generate_cover : Bool := true
  cover_variants_count : ℤ := 1
  cover_reference_image_url : Option String := none
  voice_volume : ℚ := 1
  sounds_volume : ℚ := 8/10
  music_volume : ℚ := 3/10
  deriving DecidableEq, Repr

/-- Per-step status strings of `GenerateFullResponse`. -/
structure FullResponse where
  status : String
  script_status : String
  voiceover_status : String
  sounds_status : String
  music_status : String
  merge_status : String
  cover_status : String
  final_audio_url : Option String
  cover_url : Option String
  deriving DecidableEq, Repr

/-- Outcomes of every external call the full pipeline can actually reach,
in pipeline order (the merge FFmpeg run, the cover cycles and the summary
call of the source text are unreachable: the pipeline always crashes at
the merge step, see `generate_full`). -/
structure FullEnv where
  llm : Except ApiError ScriptJson
  tts : Except ApiError (List String × List String)
  voice_url : String
  voice_duration : Except ApiError ℚ
  sound_gen : Nat → Except ApiError String
  music_plan : Except ApiError String
  music_saved_url : Except ApiError String

/-- The shared `except` block of `generate_full`: record ERROR and the
message on the episode, mark the response failed, re-raise. -/
def fullFail (ep : Episode) (resp : FullResponse) (e : ApiError) :
    Episode × FullResponse × Except ApiError Unit :=
  ({ ep with status := .error, error_message := some e.toMessage },
   { resp with status := "error" }, .error e)

/-- The `generate_full` handler, running the steps in order.  The script,
voiceover, optional sounds and optional music sections mirror the
single-step handlers (without the voice-id remap, without the empty-lines
check, and the inline sound loop hard-codes a 3-second duration and no
line index).  The merge step (step 5) always crashes: the `full_merge`
call at lines 737-744 evaluates `request.music_volume_db`, an attribute
`GenerateFullRequest` does not define, raising `AttributeError` after
MERGING is set — so the pipeline invariably ends in ERROR there, and the
rest of the source (the cover section with its own
`reference_image_url=` TypeError at line 771, the summary call and the
final DONE assignment, lines 745-800) is unreachable dead code. -/
def generate_full (ep : Episode) (req : FullRequest)
    (env : FullEnv) : Episode × FullResponse × Except ApiError Unit :=
  let resp0 : FullResponse :=
    { status := "processing"
      script_status := "pending"
      voiceover_status := "pending"
      sounds_status := if ep.include_sound_effects then "pending" else "skipped"
      music_status := if ep.include_background_music then "pending" else "skipped"
      merge_status := "pending"
      cover_status := if req.generate_cover then "pending" else "skipped"
      final_audio_url := none
      cover_url := none }
  -- 1. script
  let resp1 := { resp0 with script_status := "in_progress" }
  let epA : Episode := { ep with status := .script_generating }
  match env.llm with
  | .error e => fullFail epA resp1 e
  | .ok script =>
    let epB : Episode :=
      { epA with
        script_json := some script
        script_text := some (build_script_text_from_json script)
        title :=
          if epA.title_auto_generated ∧ strTruthy script.story_title then
            script.story_title.getD epA.title
          else epA.title
        status := .script_done }
    let resp2 := { resp1 with script_status := "done" }
    -- 2. voiceover
    let resp3 := { resp2 with voiceover_status := "in_progress" }
    let epC : Episode := { epB with status := .voiceover_generating }
    match env.tts with
    | .error e => fullFail epC resp3 e
    | .ok (_audioParts, stampParts) =>
      match env.voice_duration with
      | .error e => fullFail epC resp3 e
      | .ok dur =>
        let epD : Episode :=
          { epC with
            voice_audio_url := some env.voice_url
            voice_audio_duration_seconds := some dur
            voice_timestamps_json := some { parts := stampParts, total_parts := none }
            status := .voiceover_done }
        let resp4 := { resp3 with voiceover_status := "done" }
        -- 3. sounds (if enabled)
        let soundsStep : Episode × FullResponse × Except ApiError Unit :=
          if ep.include_sound_effects then
            let resp5 := { resp4 with sounds_status := "in_progress" }
            let epE : Episode := { epD with status := .sounds_generating }
            match generateSoundsLoop ⟨env.sound_gen⟩ 3 (sound_cues script.lines) 0 with
            | .error e => fullFail epE resp5 e
            | .ok arts =>
                ({ epE with sounds_json := some arts, status := .sounds_done },
                 { resp5 with sounds_status := "done" }, .ok ())
          else (epD, resp4, .ok ())
        match soundsStep with
        | (epF, respF, .error e) => (epF, respF, .error e)
        | (epF, respF, .ok ()) =>
          -- 4. music (if enabled)
          let musicStep : Episode × FullResponse × Except ApiError Unit :=
            if ep.include_background_music then
              let resp6 := { respF with music_status := "in_progress" }
              let epG : Episode := { epF with status := .music_generating }
              match env.music_plan with
              | .error e => fullFail epG resp6 e
              | .ok plan =>
                match env.music_saved_url with
                | .error e => fullFail epG resp6 e
                | .ok murl =>
                    ({ epG with music_url := some murl
                                music_composition_plan := some plan
                                status := .music_done },
                     { resp6 with music_status := "done" }, .ok ())
            else (epF, respF, .ok ())
          match musicStep with
          | (epH, respH, .error e) => (epH, respH, .error e)
          | (epH, respH, .ok ()) =>
            -- 5. merge: evaluating request.music_volume_db raises
            -- AttributeError before full_merge can run
            let resp7 := { respH with merge_status := "in_progress" }
            let epI : Episode := { epH with status := .merging }
            fullFail epI resp7 (.runtime
              "GenerateFullRequest object has no attribute music_volume_db")

/-! ## Concrete inputs used by the witnesses and counterexamples -/

/-- A plain dialogue line. -/
def lineHello : Line :=
  { speaker := "Narrator", voice_id := "v1", text := "Hello there", sound_effect := none }

/-- A dialogue line carrying a sound cue. -/
def lineBoom : Line :=
  { speaker := "Narrator", voice_id := "v1", text := "The door slams", sound_effect := some "door slam" }

/-- A small well-formed script. -/
def smallScript : ScriptJson :=
  { story_title := some "The Door", genre_tone := some "mystery"
    approx_duration_minutes := some 1, lines := [lineHello, lineBoom] }

/-- A script whose `lines` list is empty. -/
def emptyScript : ScriptJson :=
  { story_title := some "Empty", genre_tone := some "mystery"
    approx_duration_minutes := none, lines := [] }

/-- An episode that finished script generation but whose stored script has
no lines. -/
def epEmptyScript : Episode :=
  { blankEpisode with script_json := some emptyScript, status := .script_done }

/-- An all-successful environment for the voiceover step. -/
def voiceEnvOk : VoiceoverEnv :=
  { voice_map := fun _ => none, tts := .ok (["blob0"], ["stamps0"])
    saved_url := "/storage/audio/voice.mp3", duration := .ok 10 }

/-- A decoded LLM response whose JSON object has no `lines` key. -/
def rawMissingLines : RawScript :=
  { story_title := some "T", genre_tone := some "calm"
    lines := none, approx_duration_minutes := none }

/-- An episode carrying pre-call script fields, to exhibit that a failed
script generation leaves them untouched. -/
def epWithOldScript : Episode :=
  { blankEpisode with
    script_json := some smallScript, script_text := some "old text",
    title := "Old Title", status := .done, error_message := some "old error" }

/-- A 1000-character line text. -/
def longText : String := String.mk (List.replicate 1000 'a')

/-- A 1000-character line. -/
def longLine : Line :=
  { speaker := "N", voice_id := "", text := longText, sound_effect := none }

/-- Five 1000-character lines: 5000 characters, above the 4800 budget. -/
def manyLines : List Line := List.replicate 5 longLine

/-- Two short lines: 25 characters, below the 4800 budget. -/
def fewLines : List Line := [lineHello, lineBoom]

/-- An episode with voice audio, background music enabled and a music
artifact present — everything the claimed merge mix needs. -/
def epMergeMusicReady : Episode :=
  { blankEpisode with
    voice_audio_url := some "/storage/audio/voice.mp3",
    include_background_music := true,
    music_url := some "/storage/audio/music.mp3",
    status := .music_done }

/-- An episode ready for the voiceover step. -/
def epVoiceReady : Episode :=
  { blankEpisode with script_json := some smallScript, status := .script_done }

/-- An episode ready for the sounds step. -/
def epSoundsReady : Episode :=
  { blankEpisode with
    script_json := some smallScript,
    voice_audio_url := some "/storage/audio/voice.mp3",
    include_sound_effects := true, status := .voiceover_done }

/-- An all-successful environment for the sounds step. -/
def soundsEnvOk : SoundsEnv := { sound_gen := fun _ => .ok "/storage/audio/sfx.mp3" }

/-- An episode ready for the music step. -/
def epMusicReady : Episode :=
  { blankEpisode with
    voice_audio_url := some "/storage/audio/voice.mp3",
    voice_audio_duration_seconds := some 10,
    include_background_music := true, status := .voiceover_done }

/-- An all-successful environment for the music step. -/
def musicEnvOk : MusicEnv :=
  { plan := .ok "plan-payload", music_saved_url := .ok "/storage/audio/music.mp3" }

/-- An episode with voice audio and both optional flags off, offered to
the merge step. -/
def epMergeReady : Episode :=
  { blankEpisode with
    voice_audio_url := some "/storage/audio/voice.mp3",
    status := .voiceover_done }

/-- A full-pipeline environment where every reachable external call
succeeds. -/
def fullEnvOk : FullEnv :=
  { llm := .ok smallScript
    tts := .ok (["blob0"], ["stamps0"])
    voice_url := "/storage/audio/voice.mp3"
    voice_duration := .ok 10
    sound_gen := fun _ => .ok "/storage/audio/sfx.mp3"
    music_plan := .ok "plan-payload"
    music_saved_url := .ok "/storage/audio/music.mp3" }

/-- A DONE episode (to re-run a step on). -/
def epDoneEpisode : Episode :=
  { blankEpisode with
    status := .done, voice_audio_url := some "/storage/audio/v.mp3",
    final_audio_url := some "/storage/audio/f.mp3" }

/-- Two cover variants, the first selected. -/
def vsTwo : List CoverVariant := [{ url := "u0", selected := true }, { url := "u1", selected := false }]

/-- An episode with two cover variants. -/
def epTwoVariants : Episode :=
  { blankEpisode with
    cover_variants_json := some vsTwo, cover_url := some "u0",
    status := .done }

/-- An episode with a single cover variant. -/
def epOneVariant : Episode :=
  { blankEpisode with
    cover_variants_json := some [{ url := "u0", selected := true }],
    cover_url := some "u0", status := .done }

/-- Cover cycle outcomes where only cycle 1 fails. -/
def cyclesOneFails : Nat → Except ApiError String :=
  fun i => if i = 1 then .error (.kieai "Generation failed: timeout") else .ok ("https://img/" ++ toString i)

/-- Cover cycle outcomes where every cycle fails. -/
def cyclesAllFail : Nat → Except ApiError String :=
  fun _ => .error (.kieai "Generation failed: provider error")

/-- An episode on which the script-update endpoint is exercised. -/
def epPastVoiceover : Episode :=
  { blankEpisode with
    status := .voiceover_done,
    voice_audio_url := some "/storage/audio/v.mp3",
    voice_audio_duration_seconds := some 10,
    final_audio_url := some "/storage/audio/f.mp3",
    music_url := some "/storage/audio/m.mp3" }

/-! # Theorems -/

/-- C1 (amended): `generate_voiceover` on an episode with a missing (falsy)
`script_json` is rejected as a business-rule violation with the episode —
in particular its status and error_message — unchanged; but on an episode
whose script exists and has no lines the precondition passes and the
failure is recorded as a pipeline failure: status becomes ERROR and
error_message becomes "Script has no lines" (all other fields keep their
values). -/
theorem voiceover_empty_script_sets_error (ep : Episode) (env : VoiceoverEnv) :
    (ep.script_json = none →
      generate_voiceover ep env =
        (ep, .error (.business "Episode must have a script before generating voiceover"))) ∧
    (∀ s, ep.script_json = some s → s.lines = [] →
      generate_voiceover ep env =
        ({ ep with status := .error, error_message := some "Script has no lines" },
         .error (.business "Script has no lines"))) := by
  constructor
  · intro h
    simp [generate_voiceover, h]
  · intro s hs hl
    simp [generate_voiceover, hs, hl, ApiError.toMessage]

/-- C1 (witness): the amended theorem applied to a scriptless episode and
to an episode with an empty-lines script. -/
theorem voiceover_empty_script_sets_error_witness :
    generate_voiceover blankEpisode voiceEnvOk =
      (blankEpisode, .error (.business "Episode must have a script before generating voiceover")) ∧
    generate_voiceover epEmptyScript voiceEnvOk =
      ({ epEmptyScript with status := .error, error_message := some "Script has no lines" },
       .error (.business "Script has no lines")) :=
  ⟨(voiceover_empty_script_sets_error blankEpisode voiceEnvOk).1 rfl,
   (voiceover_empty_script_sets_error epEmptyScript voiceEnvOk).2 emptyScript rfl rfl⟩

/-- C1 (counterexample): on an episode whose script has no lines the
rejected call does mutate the episode: status moves from SCRIPT_DONE to
ERROR and error_message changes. -/
theorem voiceover_empty_script_mutates_status :
    (generate_voiceover epEmptyScript voiceEnvOk).1.status = .error ∧
    epEmptyScript.status = .script_done ∧
    (generate_voiceover epEmptyScript voiceEnvOk).1.error_message ≠
      epEmptyScript.error_message := by
  refine ⟨rfl, rfl, by simp [generate_voiceover, epEmptyScript, emptyScript, blankEpisode]⟩

/-- C2: a script-generation failure of any kind leaves every script field
(`script_json`, `script_text`, `title`) at its pre-call value and records
ERROR plus the cause as `error_message`; and an LLM response whose JSON
object is missing the `lines` key is precisely such a failure — the parse
raises a typed `LLMProviderError`. -/
theorem script_failure_writes_no_fields (ep : Episode) (provider : String)
    (r : RawScript) (hr : r.lines = none) :
    (∃ m, llm_generate_script provider (.ok r) = .error (.llmProvider provider m)) ∧
    (∀ e : ApiError, generate_script ep (.error e) =
      ({ ep with status := .error, error_message := some e.toMessage }, .error e)) := by
  constructor
  · by_cases h1 : r.story_title.isNone
    · exact ⟨"Invalid script structure: Missing required field: story_title",
        by simp [llm_generate_script, parse_script_response, missingRequiredField, h1]⟩
    · by_cases h2 : r.genre_tone.isNone
      · exact ⟨"Invalid script structure: Missing required field: genre_tone",
          by simp [llm_generate_script, parse_script_response, missingRequiredField, h1, h2]⟩
      · exact ⟨"Invalid script structure: Missing required field: lines",
          by simp [llm_generate_script, parse_script_response, missingRequiredField, h1, h2, hr]⟩
  · intro e
    rfl

/-- C2 (witness): the theorem applied to an episode carrying old script
fields and a decoded response without a `lines` key. -/
theorem script_failure_writes_no_fields_witness :
    (∃ m, llm_generate_script "openai" (.ok rawMissingLines) =
      .error (.llmProvider "openai" m)) ∧
    generate_script epWithOldScript (.error (.llmProvider "openai" "boom")) =
      ({ epWithOldScript with
          status := .error,
          error_message := some "LLM (openai) API error: boom" },
       .error (.llmProvider "openai" "boom")) := by
  refine ⟨(script_failure_writes_no_fields epWithOldScript "openai" rawMissingLines rfl).1, ?_⟩
  exact (script_failure_writes_no_fields epWithOldScript "openai" rawMissingLines rfl).2
    (.llmProvider "openai" "boom")

/-- C4 (amended): the merge endpoint as coded never mixes anything — on
an episode with voice audio every call sets MERGING and then records
ERROR, because evaluating the undefined `request.music_volume_db` raises
`AttributeError` before `full_merge` can run; without voice audio it is
rejected as a business-rule error with no mutation.  In the `full_merge`
call the handler writes (but never executes), sound effects are present
iff the sound flag is set AND `sounds_json` is a non-empty list, music iff
the music flag is set AND `music_url` is truthy, and with the music flag
off that written mix is identical whatever `music_url` holds. -/
theorem merge_always_errors_and_mixer_gating (sp : String) (ep : Episode)
    (req : MergeRequest) :
    (strTruthy ep.voice_audio_url = true →
      merge_audio ep req =
        ({ ep with
            status := .error,
            error_message := some "MergeAudioRequest object has no attribute music_volume_db" },
         .error (.runtime "MergeAudioRequest object has no attribute music_volume_db"))) ∧
    (strTruthy ep.voice_audio_url = false →
      merge_audio ep req =
        (ep, .error (.business "Episode must have voiceover before merging"))) ∧
    ((written_merge_mix sp ep req).music_track.isSome = true ↔
      ep.include_background_music = true ∧ strTruthy ep.music_url = true) ∧
    ((written_merge_mix sp ep req).sound_tracks ≠ [] ↔
      ep.include_sound_effects = true ∧ ∃ l, ep.sounds_json = some l ∧ l ≠ []) ∧
    (∀ m, ep.include_background_music = false →
      written_merge_mix sp { ep with music_url := m } req = written_merge_mix sp ep req) := by
  refine ⟨?_, ?_, ?_, ?_, ?_⟩
  · intro hv
    simp [merge_audio, hv, ApiError.toMessage]
  · intro hv
    simp [merge_audio, hv]
  · by_cases hb : ep.include_background_music
    · cases hm : ep.music_url with
      | none => simp [written_merge_mix, full_merge, strTruthy, hb, hm]
      | some m =>
          by_cases hm0 : m = "" <;>
            simp [written_merge_mix, full_merge, strTruthy, hb, hm, hm0]
    · simp [written_merge_mix, full_merge, hb]
  · by_cases hs : ep.include_sound_effects
    · cases hsj : ep.sounds_json with
      | none => simp [written_merge_mix, full_merge, hs, hsj]
      | some l =>
          by_cases hl : l = [] <;>
            simp [written_merge_mix, full_merge, hs, hsj, hl]
    · simp [written_merge_mix, full_merge, hs]
  · intro m hb
    simp [written_merge_mix, full_merge, hb]

/-- C4 (witness): the theorem applied to an episode with voice audio (the
call errors), to a draft episode (rejected without mutation), and to the
music-flag-off written mix with and without an artifact. -/
theorem merge_always_errors_and_mixer_gating_witness :
    merge_audio epMergeReady {} =
      ({ epMergeReady with
          status := .error,
          error_message := some "MergeAudioRequest object has no attribute music_volume_db" },
       .error (.runtime "MergeAudioRequest object has no attribute music_volume_db")) ∧
    merge_audio blankEpisode {} =
      (blankEpisode, .error (.business "Episode must have voiceover before merging")) ∧
    written_merge_mix "/srv" { epMergeReady with music_url := some "/storage/audio/m.mp3" } {} =
      written_merge_mix "/srv" epMergeReady {} :=
  ⟨(merge_always_errors_and_mixer_gating "/srv" epMergeReady {}).1 rfl,
   (merge_always_errors_and_mixer_gating "/srv" blankEpisode {}).2.1 rfl,
   (merge_always_errors_and_mixer_gating "/srv" epMergeReady {}).2.2.2.2
     (some "/storage/audio/m.mp3") rfl⟩

/-- C4 (counterexample): on an episode with voice audio, the music flag
set and a music artifact present — where the claim asserts a mix that
includes the music — the merge step produces no mix at all: it ends in
ERROR with the `music_volume_db` AttributeError. -/
theorem merge_step_never_mixes :
    epMergeMusicReady.include_background_music = true ∧
    strTruthy epMergeMusicReady.voice_audio_url = true ∧
    strTruthy epMergeMusicReady.music_url = true ∧
    merge_audio epMergeMusicReady {} =
      ({ epMergeMusicReady with
          status := .error,
          error_message := some "MergeAudioRequest object has no attribute music_volume_db" },
       .error (.runtime "MergeAudioRequest object has no attribute music_volume_db")) :=
  ⟨rfl, rfl, rfl, rfl⟩

/-- C8 (counterexample): re-running `generate_script` on a DONE episode
succeeds and moves the status backwards in the pipeline order (DONE at
index 12 down to SCRIPT_DONE at index 2). -/
theorem script_regeneration_moves_status_backwards :
    (generate_script epDoneEpisode (.ok smallScript)).2 =
      .ok { status := .script_done, story_title := some "The Door", lines_count := 2 } ∧
    (generate_script epDoneEpisode (.ok smallScript)).1.status.pipelineIndex <
      epDoneEpisode.status.pipelineIndex :=
  ⟨rfl, by decide⟩

/-- C9 (amended): a negative `variant_index` never reaches the handler —
the schema's `ge=0` bound rejects the request at the validation layer,
with no change to the episode. -/
theorem select_cover_negative_index_rejected (ep : Episode) (i : ℤ) (h : i < 0) :
    select_cover ep i =
      (ep, .error (.validation
        "variant_index must be greater than or equal to 0 and less than or equal to 3")) := by
  have hv : selectCoverIndexValid i = false := by
    simp only [selectCoverIndexValid, decide_eq_false_iff_not]
    omega
  simp [select_cover, hv]

/-- C9 (witness): the amended theorem applied at index `-1`. -/
theorem select_cover_negative_index_rejected_witness :
    select_cover blankEpisode (-1) =
      (blankEpisode, .error (.validation
        "variant_index must be greater than or equal to 0 and less than or equal to 3")) :=
  select_cover_negative_index_rejected blankEpisode (-1) (by decide)

/-- C9 (counterexample): selecting index `-1` on an episode with one
variant does not complete — it is rejected with no mutation, contrary to
the claimed negative-index selection behavior. -/
theorem select_cover_negative_index_not_completing :
    (select_cover epOneVariant (-1)).1 = epOneVariant ∧
    (select_cover epOneVariant (-1)).2 = .error (.validation
      "variant_index must be greater than or equal to 0 and less than or equal to 3") ∧
    ∀ u, (select_cover epOneVariant (-1)).2 ≠ .ok u := by
  refine ⟨rfl, rfl, fun u h => ?_⟩
  rw [show (select_cover epOneVariant (-1)).2 = .error (.validation
    "variant_index must be greater than or equal to 0 and less than or equal to 3") from rfl] at h
  cases h

/-- C10 (code bug): updating the script with a provided (truthy)
`script_text` crashes — line 195 of `app/api/episodes.py` evaluates a
comprehension over the local `lines` before its only assignment — so the
request aborts after storing `script_json` and the status is NOT reset to
SCRIPT_DONE. -/
theorem update_script_with_text_crashes :
    update_episode_script epPastVoiceover smallScript (some "Narrator: hi") =
      ({ epPastVoiceover with script_json := some smallScript },
       .error (.runtime
         "cannot access local variable lines where it is not associated with a value")) ∧
    (update_episode_script epPastVoiceover smallScript (some "Narrator: hi")).1.status =
      .voiceover_done :=
  ⟨rfl, rfl⟩

/-- Flattening the split reconstructs the prior parts, the current part
and the pending lines, in order. -/
theorem splitLoop_flatten (m total : Nat) :
    ∀ (rest : List Line) (parts : List (List Line)) (cur : List Line) (len : Nat),
      (splitLoop m total rest parts cur len).flatten = parts.flatten ++ cur ++ rest := by
  intro rest
  induction rest with
  | nil =>
      intro parts cur len
      by_cases hc : cur = [] <;> simp [splitLoop, hc]
  | cons l rest ih =>
      intro parts cur len
      unfold splitLoop
      by_cases hg : m * len ≥ total ∧ parts.length < m - 1 ∧ cur ≠ []
      · rw [if_pos hg, ih]
        simp
      · rw [if_neg hg, ih]
        simp

/-- The split never produces more than `m` parts: a part is closed only
while fewer than `m - 1` parts exist. -/
theorem splitLoop_length (m total : Nat) (hm : 1 ≤ m) :
    ∀ (rest : List Line) (parts : List (List Line)) (cur : List Line) (len : Nat),
      parts.length ≤ m - 1 → (splitLoop m total rest parts cur len).length ≤ m := by
  intro rest
  induction rest with
  | nil =>
      intro parts cur len hp
      unfold splitLoop
      by_cases hc : cur = []
      · rw [if_pos hc]
        omega
      · rw [if_neg hc]
        simp only [List.length_append, List.length_singleton]
        omega
  | cons l rest ih =>
      intro parts cur len hp
      unfold splitLoop
      by_cases hg : m * len ≥ total ∧ parts.length < m - 1 ∧ cur ≠ []
      · rw [if_pos hg]
        exact ih _ _ _ (by simp; omega)
      · rw [if_neg hg]
        exact ih _ _ _ hp

/-- C3: a line list whose total characters fit the per-request budget is
returned as the single part `[lines]`; otherwise the split yields at most
3 parts whose in-order concatenation is exactly the original line
sequence (so no line's text is ever divided between parts). -/
theorem split_into_parts_spec (lines : List Line) :
    (totalChars lines ≤ max_chars_per_request → split_into_parts lines = [lines]) ∧
    (max_chars_per_request < totalChars lines →
      (split_into_parts lines).length ≤ 3 ∧
      (split_into_parts lines).flatten = lines) := by
  constructor
  · intro h
    simp [split_into_parts, h]
  · intro h
    have hn : ¬ totalChars lines ≤ max_chars_per_request := by omega
    constructor
    · simpa [split_into_parts, hn] using
        splitLoop_length 3 (totalChars lines) (by norm_num) lines [] [] 0 (by simp)
    · simpa [split_into_parts, hn] using
        splitLoop_flatten 3 (totalChars lines) lines [] [] 0

set_option maxRecDepth 20000 in
/-- C3 (witness): the theorem applied to a 25-character list (one part)
and to a 5000-character list (three parts, budget 4800). -/
theorem split_into_parts_spec_witness :
    (totalChars fewLines ≤ max_chars_per_request ∧
      split_into_parts fewLines = [fewLines]) ∧
    (max_chars_per_request < totalChars manyLines ∧
      (split_into_parts manyLines).length ≤ 3 ∧
      (split_into_parts manyLines).flatten = manyLines) :=
  ⟨⟨by decide, (split_into_parts_spec fewLines).1 (by decide)⟩,
   ⟨by decide, (split_into_parts_spec manyLines).2 (by decide)⟩⟩

/-- C5 (amended): with a non-empty variants list, an index in both the
validation range `0..3` and the variant range selects exactly variant `i`
(every variant's flag becomes `k = i`) and sets the primary cover URL to
variant `i`'s URL; an index in `0..3` at or past the variant count is a
business-rule error with no mutation; an index outside `0..3` is rejected
by request validation (schema bounds `ge=0, le=3`) with no mutation. -/
theorem select_cover_variant_behavior (ep : Episode) (vs : List CoverVariant)
    (i : ℤ) (hvs : ep.cover_variants_json = some vs) (hne : vs ≠ []) :
    (0 ≤ i → i ≤ 3 → i.toNat < vs.length →
      select_cover ep i =
        ({ ep with
            cover_variants_json :=
              some (vs.mapIdx fun k v => { v with selected := k = i.toNat }),
            cover_url := some (((vs.get? i.toNat).map CoverVariant.url).getD "") },
         .ok (((vs.get? i.toNat).map CoverVariant.url).getD "")) ∧
      (∀ k : Nat, (vs.mapIdx fun j v => { v with selected := j = i.toNat })[k]? =
        vs[k]?.map fun v => { v with selected := k = i.toNat })) ∧
    (0 ≤ i → i ≤ 3 → (vs.length : ℤ) ≤ i →
      select_cover ep i =
        (ep, .error (.business ("Invalid variant index: " ++ toString i)))) ∧
    ((i < 0 ∨ 3 < i) →
      select_cover ep i =
        (ep, .error (.validation
          "variant_index must be greater than or equal to 0 and less than or equal to 3"))) := by
  refine ⟨?_, ?_, ?_⟩
  · intro h0 h3 hlt
    have hvalid : selectCoverIndexValid i = true := by
      simp only [selectCoverIndexValid, decide_eq_true_eq]
      exact ⟨h0, h3⟩
    have hrange : ¬ ((vs.length : ℤ) ≤ i) := by omega
    constructor
    · simp [select_cover, hvalid, hvs, hne, hrange]
    · intro k
      simp [List.getElem?_mapIdx]
  · intro h0 h3 hge
    have hvalid : selectCoverIndexValid i = true := by
      simp only [selectCoverIndexValid, decide_eq_true_eq]
      exact ⟨h0, h3⟩
    simp [select_cover, hvalid, hvs, hne, hge]
  · intro h
    have hvalid : selectCoverIndexValid i = false := by
      simp only [selectCoverIndexValid, decide_eq_false_iff_not]
      omega
    simp [select_cover, hvalid]

/-- C5 (witness): on an episode with two variants — selecting index 1
re-selects and updates the URL; index 3 is a business-rule error; index 5
is a validation rejection. -/
theorem select_cover_variant_behavior_witness :
    select_cover epTwoVariants 1 =
      ({ epTwoVariants with
          cover_variants_json :=
            some [{ url := "u0", selected := false }, { url := "u1", selected := true }],
          cover_url := some "u1" },
       .ok "u1") ∧
    select_cover epTwoVariants 3 =
      (epTwoVariants, .error (.business "Invalid variant index: 3")) ∧
    select_cover epTwoVariants 5 =
      (epTwoVariants, .error (.validation
        "variant_index must be greater than or equal to 0 and less than or equal to 3")) := by
  refine ⟨?_, ?_, ?_⟩
  · exact ((select_cover_variant_behavior epTwoVariants vsTwo 1 rfl (by decide)).1
      (by decide) (by decide) (by decide)).1
  · exact (select_cover_variant_behavior epTwoVariants vsTwo 3 rfl (by decide)).2.1
      (by decide) (by decide) (by decide)
  · exact (select_cover_variant_behavior epTwoVariants vsTwo 5 rfl (by decide)).2.2
      (by decide)

/-- C5 (counterexample): on an episode with a single variant, selecting
index 4 (which is at or past the variant count) fails as a request
validation error, not as the claimed business-rule error (there is still
no mutation). -/
theorem select_cover_index_four_validation_error :
    (epOneVariant.cover_variants_json.getD []).length = 1 ∧
    select_cover epOneVariant 4 =
      (epOneVariant, .error (.validation
        "variant_index must be greater than or equal to 0 and less than or equal to 3")) ∧
    ∀ m, (select_cover epOneVariant 4).2 ≠ .error (.business m) := by
  refine ⟨rfl, rfl, fun m h => ?_⟩
  rw [show (select_cover epOneVariant 4).2 = .error (.validation
    "variant_index must be greater than or equal to 0 and less than or equal to 3")
    from rfl] at h
  simp at h

/-- Collecting the gather results keeps exactly the successful values, in
order. -/
theorem collectUrls_eq_filterMap (l : List (Except ApiError String)) :
    collectUrls l = l.filterMap Except.toOption := by
  induction l with
  | nil => rfl
  | cons x rest ih => cases x <;> simp [collectUrls, Except.toOption, ih]

/-- C6: with a prompt provided, the requested variant count is clamped to
1..4; the step issues that many cycles, and if at least one cycle
succeeded it returns exactly the successful URLs in cycle order (failed
cycles dropped), while if every cycle failed the whole step raises. -/
theorem cover_variants_partial_success (p : String) (count : ℤ)
    (cycles : Nat → Except ApiError String) (hp : p ≠ "") :
    (1 ≤ clampCount count ∧ clampCount count ≤ 4) ∧
    ((∃ i, i < clampCount count ∧ ((cycles i).toOption).isSome) →
      generate_multiple_covers (some p) none count cycles =
        .ok ((List.range (clampCount count)).filterMap fun i => (cycles i).toOption)) ∧
    ((∀ i, i < clampCount count → (cycles i).toOption = none) →
      generate_multiple_covers (some p) none count cycles =
        .error (.kieai "All cover generations failed")) := by
  have hclamp : 1 ≤ clampCount count ∧ clampCount count ≤ 4 := by
    unfold clampCount
    omega
  have hcollect : collectUrls ((List.range (clampCount count)).map cycles) =
      (List.range (clampCount count)).filterMap fun i => (cycles i).toOption := by
    rw [collectUrls_eq_filterMap, List.filterMap_map]
    rfl
  refine ⟨hclamp, ?_, ?_⟩
  · rintro ⟨i, hi, hsome⟩
    have hne : (List.range (clampCount count)).filterMap
        (fun i => (cycles i).toOption) ≠ [] := by
      intro hnil
      rw [List.filterMap_eq_nil_iff] at hnil
      exact (Option.isSome_iff_ne_none.mp hsome)
        (hnil i (List.mem_range.mpr hi))
    simp [generate_multiple_covers, hp, hcollect, hne]
  · intro hall
    have hnil : (List.range (clampCount count)).filterMap
        (fun i => (cycles i).toOption) = [] := by
      rw [List.filterMap_eq_nil_iff]
      intro a ha
      exact hall a (List.mem_range.mp ha)
    simp [generate_multiple_covers, hp, hcollect, hnil]

/-- C6 (witness): the theorem applied at a request for 7 variants (clamped
to 4) where cycle 1 fails — the three successful URLs come back in order —
and at a request where every cycle fails. -/
theorem cover_variants_partial_success_witness :
    generate_multiple_covers (some "a cover") none 7 cyclesOneFails =
      .ok ["https://img/0", "https://img/2", "https://img/3"] ∧
    generate_multiple_covers (some "a cover") none 2 cyclesAllFail =
      .error (.kieai "All cover generations failed") := by
  constructor
  · exact (cover_variants_partial_success "a cover" 7 cyclesOneFails (by decide)).2.1
      ⟨0, by decide, by decide⟩
  · exact (cover_variants_partial_success "a cover" 2 cyclesAllFail (by decide)).2.2
      (fun i _ => rfl)

/-- Closed form of the cue-extraction loop for an arbitrary starting time
and index. -/
theorem soundCuesAux_closed_form (lines : List Line) :
    ∀ (t : ℚ) (i : Nat),
      soundCuesAux t i lines = (List.range lines.length).filterMap fun k =>
        if strTruthy ((lines.getD k default).sound_effect) then
          some { prompt := ((lines.getD k default).sound_effect).getD "",
                 start_time := t + estimatedEndOfLine lines k,
                 line_index := i + k }
        else none := by
  induction lines with
  | nil =>
      intro t i
      simp [soundCuesAux]
  | cons l rest ih =>
      intro t i
      have hd : estimatedEndOfLine (l :: rest) 0 = (l.text.length : ℚ) / 14 := by
        simp [estimatedEndOfLine]
      have hshift : ∀ k, estimatedEndOfLine (l :: rest) (k + 1) =
          (l.text.length : ℚ) / 14 + estimatedEndOfLine rest k := by
        intro k
        simp [estimatedEndOfLine, List.take_succ_cons]
      rw [show soundCuesAux t i (l :: rest) =
        (if strTruthy l.sound_effect then
          [({ prompt := l.sound_effect.getD "",
              start_time := t + (l.text.length : ℚ) / 14, line_index := i } : SoundCue)]
        else [])
          ++ soundCuesAux (t + (l.text.length : ℚ) / 14) (i + 1) rest from rfl]
      rw [List.length_cons, List.range_succ_eq_map, List.filterMap_cons,
        List.filterMap_map]
      have hfun : ((fun k =>
          if strTruthy (((l :: rest).getD k default).sound_effect) then
            some ({ prompt := (((l :: rest).getD k default).sound_effect).getD "",
                    start_time := t + estimatedEndOfLine (l :: rest) k,
                    line_index := i + k } : SoundCue)
          else none) ∘ Nat.succ) = fun k =>
          if strTruthy ((rest.getD k default).sound_effect) then
            some ({ prompt := ((rest.getD k default).sound_effect).getD "",
                    start_time := (t + (l.text.length : ℚ) / 14) + estimatedEndOfLine rest k,
                    line_index := (i + 1) + k } : SoundCue)
          else none := by
        funext k
        have h1 : (t + ((l.text.length : ℚ) / 14 + estimatedEndOfLine rest k)) =
            ((t + (l.text.length : ℚ) / 14) + estimatedEndOfLine rest k) := by ring
        have h2 : i + (k + 1) = (i + 1) + k := by omega
        simp only [Function.comp_apply, List.getD_cons_succ, hshift k, h1, h2]
      rw [hfun, ← ih (t + (l.text.length : ℚ) / 14) (i + 1)]
      by_cases hse0 : strTruthy l.sound_effect
      · simp [hse0, List.getD_cons_zero, hd]
      · simp [hse0, List.getD_cons_zero, hd]

/-- C7: `generate_sounds` places a cue for every line with a truthy
`sound_effect`, at a `start_time` equal to the cumulative estimated
duration at the END of that line — the sum over lines `0..i` (prior lines
plus the current one) of `len(text) / 14` seconds — and at no other
position. -/
theorem sound_cue_placement (lines : List Line) :
    sound_cues lines = (List.range lines.length).filterMap fun k =>
      if strTruthy ((lines.getD k default).sound_effect) then
        some { prompt := ((lines.getD k default).sound_effect).getD "",
               start_time := estimatedEndOfLine lines k,
               line_index := k }
      else none := by
  have h := soundCuesAux_closed_form lines 0 0
  simpa [sound_cues] using h

/-- C8 (amended): status transitions are not monotonic, and three of the
listed operations cannot complete at all.  Each step that can succeed
sets the episode status to a fixed done-state independently of the prior
status (script → SCRIPT_DONE, voiceover → VOICEOVER_DONE,
sounds → SOUNDS_DONE, music → MUSIC_DONE) — so re-running an earlier step
on an episode in a later state moves the status backwards — while merge,
the standalone cover endpoint and the full pipeline never succeed as
coded (merge and the pipeline's merge step evaluate the undefined
`request.music_volume_db`, the cover endpoint the undefined
`request.reference_images`), each ending in an error. -/
theorem step_success_sets_fixed_status :
    (∀ ep s, (generate_script ep (.ok s)).1.status = .script_done) ∧
    (∀ ep env ep' r, generate_voiceover ep env = (ep', .ok r) →
      ep'.status = .voiceover_done) ∧
    (∀ ep req env ep' r, generate_sounds ep req env = (ep', .ok r) →
      ep'.status = .sounds_done) ∧
    (∀ ep env ep' u, generate_music ep env = (ep', .ok u) →
      ep'.status = .music_done) ∧
    (∀ ep req, ∃ e, (merge_audio ep req).2 = .error e) ∧
    (∀ ep req, ∃ e, (generate_cover ep req).2 = .error e) ∧
    (∀ ep req env ep' resp exc, generate_full ep req env = (ep', resp, exc) →
      ∃ e, exc = .error e) := by
  refine ⟨fun ep s => rfl, ?_, ?_, ?_, ?_, ?_, ?_⟩
  · intro ep env ep' r h
    simp only [generate_voiceover] at h
    repeat' split at h
    all_goals
      first
        | (have h2 := congrArg Prod.fst h
           subst h2
           rfl)
        | simp at h
  · intro ep req env ep' r h
    simp only [generate_sounds] at h
    repeat' split at h
    all_goals
      first
        | (have h2 := congrArg Prod.fst h
           subst h2
           rfl)
        | simp at h
  · intro ep env ep' u h
    simp only [generate_music] at h
    repeat' split at h
    all_goals
      first
        | (have h2 := congrArg Prod.fst h
           subst h2
           rfl)
        | simp at h
  · intro ep req
    by_cases hv : strTruthy ep.voice_audio_url = true
    · exact ⟨.runtime "MergeAudioRequest object has no attribute music_volume_db",
        by simp [merge_audio, hv]⟩
    · exact ⟨.business "Episode must have voiceover before merging",
        by simp [merge_audio, hv]⟩
  · intro ep req
    by_cases hvc : 1 ≤ req.variants_count ∧ req.variants_count ≤ 4
    · exact ⟨.runtime "GenerateCoverRequest object has no attribute reference_images",
        by simp [generate_cover, hvc]⟩
    · exact ⟨.validation "variants_count must be between 1 and 4",
        by simp [generate_cover, hvc]⟩
  · intro ep req env ep' resp exc h
    simp only [generate_full] at h
    repeat' split at h
    all_goals
      (replace h := congrArg (fun x => x.2.2) h
       simp only [fullFail] at h
       exact ⟨_, h.symm⟩)

/-- C8 (witness): the amended theorem applied to concrete successful runs
of the voiceover, sounds and music steps, and to a concrete full-pipeline
run where every reachable external call succeeds yet the run still ends
in an error (at the merge step). -/
theorem step_success_sets_fixed_status_witness :
    (generate_voiceover epVoiceReady voiceEnvOk).1.status = .voiceover_done ∧
    (generate_sounds epSoundsReady {} soundsEnvOk).1.status = .sounds_done ∧
    (generate_music epMusicReady musicEnvOk).1.status = .music_done ∧
    (∃ e, (generate_full blankEpisode {} fullEnvOk).2.2 = .error e) := by
  refine ⟨?_, ?_, ?_, ?_⟩
  · exact step_success_sets_fixed_status.2.1 epVoiceReady voiceEnvOk _
      { audio_url := "/storage/audio/voice.mp3", duration_seconds := 10, parts_count := 1 } rfl
  · exact step_success_sets_fixed_status.2.2.1 epSoundsReady {} soundsEnvOk _
      { sounds_count := 1 } rfl
  · exact step_success_sets_fixed_status.2.2.2.1 epMusicReady musicEnvOk _
      "/storage/audio/music.mp3" rfl
  · exact step_success_sets_fixed_status.2.2.2.2.2.2 blankEpisode {} fullEnvOk _ _ _ rfl

end Heinercast
